import Mathlib

/-!
Shallow embedding of `src/connect_options.rs` from the Paho MQTT Rust client.

Memory model: a pointer is `Option Nat` (`none` = null, `some a` = address
`a`).  Heap allocations (`Box::new`, `CString::new`) are given explicit
addresses; operations that allocate (default construction, clone, builder
finalize) take the addresses of their fresh allocations as extra
parameters.  The allocator's guarantee — a fresh address differs from every
live allocation's address — appears as an explicit hypothesis where a
theorem needs it.

Machine integers: the C struct's `int` fields are modelled as `Int`; the
Rust cast `u64 as i32` is `toI32` (truncate modulo 2^32, reinterpret as
two's complement signed).
-/

namespace Paho

/-- Rust `u64 as i32`: keep the low 32 bits, reinterpret as two's-complement
signed 32-bit. -/
def toI32 (n : Nat) : Int :=
  let m : Nat := n % 2 ^ 32
  if m < 2 ^ 31 then (m : Int) else (m : Int) - 2 ^ 32

/-- `std::time::Duration`: whole seconds plus a (sub-second) nanosecond part. -/
structure Duration where
  secs : Nat
  nanos : Nat
deriving DecidableEq, Repr

/-- `Duration::as_secs`: the whole-second count, discarding nanoseconds. -/
def Duration.as_secs (d : Duration) : Nat := d.secs

/-- `std::ffi::CString`: an owned, heap-allocated, null-terminated byte
buffer.  `addr` is the address of the buffer (`as_ptr`), `bytes` the content
without the terminator; a `CString` never contains an interior `0` byte. -/
structure CString where
  addr : Nat
  bytes : List Nat
deriving DecidableEq, Repr

/-- `CString::new`: fails (with `NulError`) exactly when the text contains an
embedded terminator byte; otherwise builds the buffer at the given fresh
address. -/
def CString.new (addr : Nat) (s : List Nat) : Option CString :=
  if 0 ∈ s then none else some ⟨addr, s⟩

/-- `CString::as_ptr`: address of the owned buffer (never null). -/
def CString.as_ptr (c : CString) : Option Nat := some c.addr

/-- `CString::as_bytes`: the content without the terminator. -/
def CString.as_bytes (c : CString) : List Nat := c.bytes

/-- A `Box<α>`: heap storage with a stable address holding a value.  The
address also stands for the address of the boxed value's boundary field
(`&mut will_opts.opts`, `&mut ssl_opts.copts`), which lives inside the box. -/
structure CBox (α : Type) where
  addr : Nat
  val : α
deriving DecidableEq, Repr

/-- Modelled from the spec: the Will (last-will-and-testament)
sub-configuration is an external collaborator (`will_options.rs` is not under
`src/`); it owns its field values and exposes an address-stable encoded
boundary form `opts`.  Its content is abstracted to a single value; cloning
it copies the value. -/
structure WillOptions where
  opts : Nat
deriving DecidableEq, Repr

/-- Modelled from the spec: the Security (SSL/TLS) sub-configuration is an
external collaborator (`ssl_options.rs` is not under `src/`); it owns its
field values and exposes an address-stable encoded boundary form `copts`. -/
structure SslOptions where
  copts : Nat
deriving DecidableEq, Repr

/-- The boundary representation `ffi::MQTTAsync_connectOptions`: a
fixed-layout C struct of scalar fields and address fields. -/
structure MQTTAsync_connectOptions where
  struct_id : List Int
  struct_version : Int
  keepAliveInterval : Int
  cleansession : Int
  maxInflight : Int
  will : Option Nat
  username : Option Nat
  password : Option Nat
  connectTimeout : Int
  retryInterval : Int
  ssl : Option Nat
  automaticReconnect : Int
  minRetryInterval : Int
  maxRetryInterval : Int
deriving DecidableEq, Repr

/-- Modelled from the spec: `ffi::MQTTAsync_connectOptions::default()` lives
in the external sys crate, not under `src/`.  Per the spec's boundary table
and the repository's unit test: format tag "MQTC" (as `i8` character codes),
format version 5, all address fields null, scalar defaults from the external
runtime (keep-alive 60 s, clean session on, 10 in-flight, 30 s connect
timeout, retry interval 0, automatic reconnect off, backoff bounds 1/60 s). -/
def MQTTAsync_connectOptions.default : MQTTAsync_connectOptions :=
  { struct_id := [77, 81, 84, 67]
    struct_version := 5
    keepAliveInterval := 60
    cleansession := 1
    maxInflight := 10
    will := none
    username := none
    password := none
    connectTimeout := 30
    retryInterval := 0
    ssl := none
    automaticReconnect := 0
    minRetryInterval := 1
    maxRetryInterval := 60 }

/-- `ConnectOptions`: the collection of options for connecting to a broker.
It owns the boundary struct `copts`, the optional boxed sub-configurations,
and the credential buffers. -/
structure ConnectOptions where
  copts : MQTTAsync_connectOptions
  will : Option (CBox WillOptions)
  ssl : Option (CBox SslOptions)
  user_name : CString
  password : CString
deriving DecidableEq, Repr

/-- `ConnectOptions::fixup`: fixes up the underlying C struct to point to the
instance's own cached values.  `copts.will`/`copts.ssl` become the addresses
of the owned boxes (null when absent); `copts.username` becomes the buffer
address when the username is empty and null otherwise (as written in the
source); `copts.password` always becomes the password buffer's address. -/
def ConnectOptions.fixup (opts : ConnectOptions) : ConnectOptions :=
  { opts with copts :=
    { opts.copts with
      will :=
        match opts.will with
        | some will_opts => some will_opts.addr
        | none => none
      ssl :=
        match opts.ssl with
        | some ssl_opts => some ssl_opts.addr
        | none => none
      username :=
        if opts.user_name.as_bytes.length = 0 then opts.user_name.as_ptr
        else none
      password := opts.password.as_ptr } }

/-- `ConnectOptions::set_clean_session`: pure scalar mutation of the
clean-session flag in the boundary struct. -/
def ConnectOptions.set_clean_session (self : ConnectOptions) (clean : Bool) :
    ConnectOptions :=
  { self with copts :=
    { self.copts with cleansession := if clean then 1 else 0 } }

/-- `ConnectOptions::get_clean_session`: reads the clean-session flag. -/
def ConnectOptions.get_clean_session (self : ConnectOptions) : Bool :=
  self.copts.cleansession != 0

/-- `impl Default for ConnectOptions`: default boundary struct, no will, no
ssl, empty credential buffers (freshly allocated at `ua`, `pa`), then fixup.
(`CString::new("").unwrap()` cannot fail: the empty text has no interior
terminator.) -/
def ConnectOptions.default (ua pa : Nat) : ConnectOptions :=
  ConnectOptions.fixup
    { copts := MQTTAsync_connectOptions.default
      will := none
      ssl := none
      user_name := ⟨ua, []⟩
      password := ⟨pa, []⟩ }

/-- `ConnectOptions::new` delegates to `default`. -/
def ConnectOptions.new (ua pa : Nat) : ConnectOptions :=
  ConnectOptions.default ua pa

/-- `impl Clone for ConnectOptions`: deep copy — the boxed sub-configurations
and credential buffers are re-allocated at fresh addresses (`wa`, `sa`, `ua`,
`pa`) holding copies of the source's values, the scalar struct is copied —
followed by fixup on the result. -/
def ConnectOptions.clone (self : ConnectOptions) (wa sa ua pa : Nat) :
    ConnectOptions :=
  ConnectOptions.fixup
    { copts := self.copts
      will := self.will.map (fun b => ⟨wa, b.val⟩)
      ssl := self.ssl.map (fun b => ⟨sa, b.val⟩)
      user_name := ⟨ua, self.user_name.bytes⟩
      password := ⟨pa, self.password.bytes⟩ }

/-- `ConnectOptionsBuilder`: a mutable accumulator; `user_name`/`password`
are plain owned strings (byte lists), the sub-configurations are held by
value. -/
structure ConnectOptionsBuilder where
  copts : MQTTAsync_connectOptions
  will : Option WillOptions
  ssl : Option SslOptions
  user_name : List Nat
  password : List Nat
deriving DecidableEq, Repr

namespace ConnectOptionsBuilder

/-- `ConnectOptionsBuilder::new`. -/
def new : ConnectOptionsBuilder :=
  { copts := MQTTAsync_connectOptions.default
    will := none
    ssl := none
    user_name := []
    password := [] }

/-- `ConnectOptionsBuilder::keep_alive_interval`: stores `1` when the
duration's whole-second count is zero, otherwise the count cast `as i32`. -/
def keep_alive_interval (self : ConnectOptionsBuilder)
    (keep_alive_interval : Duration) : ConnectOptionsBuilder :=
  let secs := keep_alive_interval.as_secs
  { self with copts :=
    { self.copts with
      keepAliveInterval := if secs = 0 then 1 else toI32 secs } }

/-- `ConnectOptionsBuilder::clean_session`. -/
def clean_session (self : ConnectOptionsBuilder) (clean : Bool) :
    ConnectOptionsBuilder :=
  { self with copts :=
    { self.copts with cleansession := if clean then 1 else 0 } }

/-- `ConnectOptionsBuilder::max_inflight`. -/
def max_inflight (self : ConnectOptionsBuilder) (mi : Int) :
    ConnectOptionsBuilder :=
  { self with copts := { self.copts with maxInflight := mi } }

/-- `ConnectOptionsBuilder::will_options`: stores the Will sub-configuration
by value. -/
def will_options (self : ConnectOptionsBuilder) (will : WillOptions) :
    ConnectOptionsBuilder :=
  { self with will := some will }

/-- `ConnectOptionsBuilder::ssl_options`: stores the Security
sub-configuration by value. -/
def ssl_options (self : ConnectOptionsBuilder) (ssl : SslOptions) :
    ConnectOptionsBuilder :=
  { self with ssl := some ssl }

/-- `ConnectOptionsBuilder::user_name` (renamed `set_user_name` here because
Lean forbids a declaration sharing the field accessor's name): stores an
owned copy of the raw text, with no validation. -/
def set_user_name (self : ConnectOptionsBuilder) (s : List Nat) :
    ConnectOptionsBuilder :=
  { self with user_name := s }

/-- `ConnectOptionsBuilder::password` (renamed `set_password` here because
Lean forbids a declaration sharing the field accessor's name): stores an
owned copy of the raw text, with no validation. -/
def set_password (self : ConnectOptionsBuilder) (s : List Nat) :
    ConnectOptionsBuilder :=
  { self with password := s }

/-- `ConnectOptionsBuilder::connect_timeout`: stores `1` when the duration's
whole-second count is zero, otherwise the count cast `as i32`. -/
def connect_timeout (self : ConnectOptionsBuilder) (timeout : Duration) :
    ConnectOptionsBuilder :=
  let secs := timeout.as_secs
  { self with copts :=
    { self.copts with
      connectTimeout := if secs = 0 then 1 else toI32 secs } }

/-- `ConnectOptionsBuilder::retry_interval`: as written in the source, this
writes the clamped second count into `connectTimeout`, not into
`retryInterval`. -/
def retry_interval (self : ConnectOptionsBuilder) (interval : Duration) :
    ConnectOptionsBuilder :=
  let secs := interval.as_secs
  { self with copts :=
    { self.copts with
      connectTimeout := if secs = 0 then 1 else toI32 secs } }

/-- `ConnectOptionsBuilder::automatic_reconnect`: enables the flag and stores
the two clamped second counts into the min/max backoff fields. -/
def automatic_reconnect (self : ConnectOptionsBuilder)
    (min_retry_interval max_retry_interval : Duration) :
    ConnectOptionsBuilder :=
  let minsecs := min_retry_interval.as_secs
  let maxsecs := max_retry_interval.as_secs
  { self with copts :=
    { self.copts with
      automaticReconnect := 1
      minRetryInterval := if minsecs = 0 then 1 else toI32 minsecs
      maxRetryInterval := if maxsecs = 0 then 1 else toI32 maxsecs } }

/-- `ConnectOptionsBuilder::finalize`: copies the accumulator's boundary
struct, boxes clones of the sub-configurations when present (fresh boxes at
`wa`, `sa`), encodes the credentials as `CString`s (fresh buffers at `ua`,
`pa`), and runs fixup.  The source calls `.unwrap()` on the two
`CString::new` results, so the whole operation fails (the unwrap panics on
`NulError`) exactly when a credential contains an embedded terminator byte;
that failure is the `none` branch here. -/
def finalize (self : ConnectOptionsBuilder) (wa sa ua pa : Nat) :
    Option ConnectOptions :=
  match CString.new ua self.user_name, CString.new pa self.password with
  | some un, some pw =>
      some (ConnectOptions.fixup
        { copts := self.copts
          will := self.will.map (fun w => ⟨wa, w⟩)
          ssl := self.ssl.map (fun s => ⟨sa, s⟩)
          user_name := un
          password := pw })
  | _, _ => none

end ConnectOptionsBuilder

end Paho

namespace Paho

/-! ## Helper lemmas -/

theorem toI32_of_lt {n : Nat} (h : n < 2 ^ 31) : toI32 n = n := by
  have h2 : n % 2 ^ 32 = n := Nat.mod_eq_of_lt (by omega)
  unfold toI32
  simp only [h2, if_pos h]

theorem clamped_store_eq_max {n : Nat} (h : n ≤ 2 ^ 31 - 1) :
    (if n = 0 then 1 else toI32 n) = ((max 1 n : Nat) : Int) := by
  by_cases hn : n = 0
  · subst hn; simp
  · rw [if_neg hn, toI32_of_lt (by omega)]
    have hmax : max 1 n = n := by omega
    rw [hmax]

/-! ## Sample values used by witnesses -/

/-- A concrete aggregate holding a will, an ssl configuration and non-empty
credentials, for instantiating the universally quantified theorems. -/
def sampleOpts : ConnectOptions :=
  ConnectOptions.fixup
    { copts := MQTTAsync_connectOptions.default
      will := some ⟨10, ⟨7⟩⟩
      ssl := some ⟨11, ⟨8⟩⟩
      user_name := ⟨12, [97]⟩
      password := ⟨13, [98]⟩ }

/-- A concrete builder holding a will, an ssl configuration and a username. -/
def sampleBuilder : ConnectOptionsBuilder :=
  ((ConnectOptionsBuilder.new.will_options ⟨7⟩).ssl_options ⟨8⟩).set_user_name
    [97]

/-- The aggregate `sampleBuilder` finalizes to (finalize succeeds here). -/
def sampleFinalized : ConnectOptions :=
  (sampleBuilder.finalize 30 31 32 33).getD (ConnectOptions.default 0 0)

/-! ## Claim theorems -/

/-- Claim C8: fixup is idempotent — applying it twice yields the same value
as applying it once, every address field being recomputed from the same
owned storage both times. -/
theorem fixup_idempotent (o : ConnectOptions) :
    ConnectOptions.fixup (ConnectOptions.fixup o) = ConnectOptions.fixup o := by
  obtain ⟨copts, will, ssl, un, pw⟩ := o
  cases will <;> cases ssl <;>
    simp [ConnectOptions.fixup, CString.as_bytes, CString.as_ptr]

/-- Claim C9: setting the clean-session flag is a pure scalar mutation —
reading it back returns the value just set, and every other field of the
aggregate (all boundary scalar fields, all boundary address fields, and all
owned storage) is unchanged; no address field is recomputed. -/
theorem set_clean_session_frame (o : ConnectOptions) (b : Bool) :
    ((o.set_clean_session b).get_clean_session = b) ∧
    ((o.set_clean_session b).copts.cleansession = if b then 1 else 0) ∧
    ((o.set_clean_session b).copts.struct_id = o.copts.struct_id) ∧
    ((o.set_clean_session b).copts.struct_version = o.copts.struct_version) ∧
    ((o.set_clean_session b).copts.keepAliveInterval
        = o.copts.keepAliveInterval) ∧
    ((o.set_clean_session b).copts.maxInflight = o.copts.maxInflight) ∧
    ((o.set_clean_session b).copts.will = o.copts.will) ∧
    ((o.set_clean_session b).copts.username = o.copts.username) ∧
    ((o.set_clean_session b).copts.password = o.copts.password) ∧
    ((o.set_clean_session b).copts.connectTimeout = o.copts.connectTimeout) ∧
    ((o.set_clean_session b).copts.retryInterval = o.copts.retryInterval) ∧
    ((o.set_clean_session b).copts.ssl = o.copts.ssl) ∧
    ((o.set_clean_session b).copts.automaticReconnect
        = o.copts.automaticReconnect) ∧
    ((o.set_clean_session b).copts.minRetryInterval
        = o.copts.minRetryInterval) ∧
    ((o.set_clean_session b).copts.maxRetryInterval
        = o.copts.maxRetryInterval) ∧
    ((o.set_clean_session b).will = o.will) ∧
    ((o.set_clean_session b).ssl = o.ssl) ∧
    ((o.set_clean_session b).user_name = o.user_name) ∧
    ((o.set_clean_session b).password = o.password) := by
  cases b <;>
    simp [ConnectOptions.set_clean_session, ConnectOptions.get_clean_session]

/-- Claim C3: after fixup (the final step of every construction path), the
boundary username address is non-null precisely when the stored username
text is empty — and null when it is non-empty — while the boundary password
address is always non-null, regardless of the password's content. -/
theorem fixup_username_password_null_policy (o : ConnectOptions) :
    ((ConnectOptions.fixup o).copts.username ≠ none ↔
        o.user_name.bytes.length = 0) ∧
    ((ConnectOptions.fixup o).copts.password ≠ none) ∧
    ((ConnectOptions.fixup o).user_name = o.user_name) ∧
    ((ConnectOptions.fixup o).password = o.password) ∧
    ((ConnectOptions.fixup o).copts.username =
        if o.user_name.bytes.length = 0 then some o.user_name.addr
        else none) ∧
    ((ConnectOptions.fixup o).copts.password = some o.password.addr) := by
  refine ⟨?_, ?_, rfl, rfl, ?_, rfl⟩
  · by_cases h : o.user_name.bytes.length = 0 <;>
      simp [ConnectOptions.fixup, CString.as_bytes, CString.as_ptr, h]
  · simp [ConnectOptions.fixup, CString.as_ptr]
  · by_cases h : o.user_name.bytes.length = 0 <;>
      simp [ConnectOptions.fixup, CString.as_bytes, CString.as_ptr, h]

/-- Witness for C3: on a concrete aggregate with the non-empty username
"a", the password address is non-null and the username address is null. -/
theorem fixup_username_password_null_policy_witness :
    ((ConnectOptions.fixup sampleOpts).copts.password ≠ none) ∧
    ((ConnectOptions.fixup sampleOpts).copts.username = none) := by
  have h := fixup_username_password_null_policy sampleOpts
  refine ⟨h.2.1, ?_⟩
  rw [h.2.2.2.2.1]
  decide

/-- Claim C4, counterexample: at a duration of 2^32 seconds, the
retry-interval setter stores 0 into the connect-timeout field — not
max(1, 2^32) — because the second count is cast `as i32` after the zero
test, so the claim as stated (for every duration) is false. -/
theorem retry_interval_claim_counterexample :
    ¬ ((ConnectOptionsBuilder.new.retry_interval
          ⟨2 ^ 32, 0⟩).copts.connectTimeout
        = ((max 1 ((⟨2 ^ 32, 0⟩ : Duration).as_secs) : Nat) : Int)) := by
  decide

/-- Claim C4 (amended: restricted to durations whose whole-second count fits
in a signed 32-bit integer, i.e. is at most 2^31 - 1): retry_interval stores
max(1, whole seconds) into the connect-timeout field of the accumulator and
leaves the dedicated retry-interval field unchanged, so a value set only via
retry_interval never reaches the boundary representation's retry-interval
field. -/
theorem retry_interval_writes_connect_timeout (b : ConnectOptionsBuilder)
    (d : Duration) (h : d.as_secs ≤ 2 ^ 31 - 1) :
    ((b.retry_interval d).copts.connectTimeout
        = ((max 1 d.as_secs : Nat) : Int)) ∧
    ((b.retry_interval d).copts.retryInterval = b.copts.retryInterval) := by
  refine ⟨?_, rfl⟩
  simpa [ConnectOptionsBuilder.retry_interval] using clamped_store_eq_max h

/-- Witness for C4: retry_interval(7 s) on a fresh builder writes 7 into the
connect-timeout field and leaves the retry-interval field at its prior
value. -/
theorem retry_interval_writes_connect_timeout_witness :
    ((ConnectOptionsBuilder.new.retry_interval ⟨7, 0⟩).copts.connectTimeout
        = 7) ∧
    ((ConnectOptionsBuilder.new.retry_interval ⟨7, 0⟩).copts.retryInterval
        = ConnectOptionsBuilder.new.copts.retryInterval) := by
  have h := retry_interval_writes_connect_timeout ConnectOptionsBuilder.new
    ⟨7, 0⟩ (by decide)
  exact ⟨h.1.trans (by decide), h.2⟩

/-- Claim C6, counterexample: at a duration of 2^32 seconds,
keep_alive_interval stores 0 — not max(1, 2^32) — because the second count
is cast `as i32` after the zero test, so the claim as stated (for every
duration) is false. -/
theorem keep_alive_clamp_counterexample :
    ¬ ((ConnectOptionsBuilder.new.keep_alive_interval
          ⟨2 ^ 32, 0⟩).copts.keepAliveInterval
        = ((max 1 ((⟨2 ^ 32, 0⟩ : Duration).as_secs) : Nat) : Int)) := by
  decide

/-- Claim C6 (amended: restricted to durations whose whole-second count is at
most 2^31 - 1): keep_alive_interval and connect_timeout each store
max(1, whole seconds) into their respective fields; in particular a
zero-second duration yields a stored value of 1. -/
theorem keep_alive_connect_timeout_clamp (b1 b2 : ConnectOptionsBuilder)
    (d1 d2 : Duration) (h1 : d1.as_secs ≤ 2 ^ 31 - 1)
    (h2 : d2.as_secs ≤ 2 ^ 31 - 1) :
    ((b1.keep_alive_interval d1).copts.keepAliveInterval
        = ((max 1 d1.as_secs : Nat) : Int)) ∧
    ((b2.connect_timeout d2).copts.connectTimeout
        = ((max 1 d2.as_secs : Nat) : Int)) ∧
    ((b1.keep_alive_interval ⟨0, 0⟩).copts.keepAliveInterval = 1) ∧
    ((b2.connect_timeout ⟨0, 0⟩).copts.connectTimeout = 1) := by
  refine ⟨?_, ?_, rfl, rfl⟩
  · simpa [ConnectOptionsBuilder.keep_alive_interval] using
      clamped_store_eq_max h1
  · simpa [ConnectOptionsBuilder.connect_timeout] using
      clamped_store_eq_max h2

/-- Witness for C6: keep_alive_interval(0 s) stores 1 and connect_timeout
(9 s) stores 9 on a fresh builder. -/
theorem keep_alive_connect_timeout_clamp_witness :
    ((ConnectOptionsBuilder.new.keep_alive_interval
        ⟨0, 0⟩).copts.keepAliveInterval = 1) ∧
    ((ConnectOptionsBuilder.new.connect_timeout ⟨9, 0⟩).copts.connectTimeout
        = 9) := by
  have h := keep_alive_connect_timeout_clamp ConnectOptionsBuilder.new
    ConnectOptionsBuilder.new ⟨0, 0⟩ ⟨9, 0⟩ (by decide) (by decide)
  exact ⟨h.2.2.1, h.2.1.trans (by decide)⟩

/-- Claim C7, counterexample: with a minimum backoff of 2^32 seconds,
automatic_reconnect stores 0 — not max(1, 2^32) — into the minimum-backoff
field, because the second count is cast `as i32` after the zero test, so the
claim as stated (for all durations) is false. -/
theorem automatic_reconnect_claim_counterexample :
    ¬ ((ConnectOptionsBuilder.new.automatic_reconnect ⟨2 ^ 32, 0⟩
          ⟨5, 0⟩).copts.minRetryInterval
        = ((max 1 ((⟨2 ^ 32, 0⟩ : Duration).as_secs) : Nat) : Int)) := by
  decide

/-- Claim C7 (amended: restricted to durations whose whole-second counts are
at most 2^31 - 1 each): automatic_reconnect enables the flag and stores
max(1, whole seconds) of the minimum and of the maximum verbatim into the
min/max backoff fields, with no reordering, swapping, or rejection — the
statement carries no hypothesis relating the two durations, so it applies
even when the minimum exceeds the maximum. -/
theorem automatic_reconnect_verbatim (b : ConnectOptionsBuilder)
    (mn mx : Duration) (h1 : mn.as_secs ≤ 2 ^ 31 - 1)
    (h2 : mx.as_secs ≤ 2 ^ 31 - 1) :
    ((b.automatic_reconnect mn mx).copts.automaticReconnect = 1) ∧
    ((b.automatic_reconnect mn mx).copts.minRetryInterval
        = ((max 1 mn.as_secs : Nat) : Int)) ∧
    ((b.automatic_reconnect mn mx).copts.maxRetryInterval
        = ((max 1 mx.as_secs : Nat) : Int)) := by
  refine ⟨rfl, ?_, ?_⟩
  · simpa [ConnectOptionsBuilder.automatic_reconnect] using
      clamped_store_eq_max h1
  · simpa [ConnectOptionsBuilder.automatic_reconnect] using
      clamped_store_eq_max h2

/-- Witness for C7: automatic_reconnect(5 s, 2 s) — minimum greater than
maximum — stores 5 and 2 verbatim and enables the flag. -/
theorem automatic_reconnect_verbatim_witness :
    ((ConnectOptionsBuilder.new.automatic_reconnect ⟨5, 0⟩
        ⟨2, 0⟩).copts.automaticReconnect = 1) ∧
    ((ConnectOptionsBuilder.new.automatic_reconnect ⟨5, 0⟩
        ⟨2, 0⟩).copts.minRetryInterval = 5) ∧
    ((ConnectOptionsBuilder.new.automatic_reconnect ⟨5, 0⟩
        ⟨2, 0⟩).copts.maxRetryInterval = 2) := by
  have h := automatic_reconnect_verbatim ConnectOptionsBuilder.new ⟨5, 0⟩
    ⟨2, 0⟩ (by decide) (by decide)
  exact ⟨h.1, h.2.1.trans (by decide), h.2.2.trans (by decide)⟩

/-- Claim C10: for every duration whose whole-second count does not fit in a
signed 32-bit integer (count at least 2^31), each of the four
duration-taking setters stores the count truncated modulo 2^32 and
reinterpreted as two's-complement signed (`toI32`), which can be zero or
negative; the clamp to 1 fires only on an exactly-zero count, never after
truncation.  The final conjunct spells `toI32` out as
mod-2^32-then-sign-adjust. -/
theorem setter_overflow_truncation (b : ConnectOptionsBuilder)
    (d e : Duration) (h : 2 ^ 31 ≤ d.as_secs) :
    ((b.keep_alive_interval d).copts.keepAliveInterval = toI32 d.as_secs) ∧
    ((b.connect_timeout d).copts.connectTimeout = toI32 d.as_secs) ∧
    ((b.retry_interval d).copts.connectTimeout = toI32 d.as_secs) ∧
    ((b.automatic_reconnect d e).copts.minRetryInterval
        = toI32 d.as_secs) ∧
    ((b.automatic_reconnect e d).copts.maxRetryInterval
        = toI32 d.as_secs) ∧
    (toI32 d.as_secs = ((d.as_secs % 2 ^ 32 : Nat) : Int) -
        (if d.as_secs % 2 ^ 32 < 2 ^ 31 then 0 else 2 ^ 32)) := by
  have hz : ¬ d.as_secs = 0 := by omega
  refine ⟨?_, ?_, ?_, ?_, ?_, ?_⟩
  · simp [ConnectOptionsBuilder.keep_alive_interval, hz]
  · simp [ConnectOptionsBuilder.connect_timeout, hz]
  · simp [ConnectOptionsBuilder.retry_interval, hz]
  · simp [ConnectOptionsBuilder.automatic_reconnect, hz]
  · simp [ConnectOptionsBuilder.automatic_reconnect, hz]
  · simp only [toI32]
    split <;> rename_i hc <;> simp [hc]

/-- Witness for C10: a duration of 2^32 seconds stores 0 (the clamp does not
fire), and a duration of 2^31 seconds stores -2^31 (a negative value). -/
theorem setter_overflow_truncation_witness :
    ((ConnectOptionsBuilder.new.keep_alive_interval
        ⟨2 ^ 32, 0⟩).copts.keepAliveInterval = 0) ∧
    ((ConnectOptionsBuilder.new.keep_alive_interval
        ⟨2 ^ 31, 0⟩).copts.keepAliveInterval = -(2 ^ 31)) := by
  have h1 := setter_overflow_truncation ConnectOptionsBuilder.new
    ⟨2 ^ 32, 0⟩ ⟨1, 0⟩ (by decide)
  have h2 := setter_overflow_truncation ConnectOptionsBuilder.new
    ⟨2 ^ 31, 0⟩ ⟨1, 0⟩ (by decide)
  exact ⟨h1.1.trans (by decide), h2.1.trans (by decide)⟩

/-- Claim C5: finalize fails exactly when the stored username or password
text contains an embedded terminator byte (the source's `.unwrap()` on
`CString::new`, modelled as the `none` branch); the failure occurs at
finalize, not at the credential setters, which are total and always store
the raw text unchanged. -/
theorem finalize_fails_iff_embedded_nul (b : ConnectOptionsBuilder)
    (s t : List Nat) (wa sa ua pa : Nat) :
    ((b.set_user_name s).user_name = s) ∧
    ((b.set_password t).password = t) ∧
    (b.finalize wa sa ua pa = none ↔
        (0 ∈ b.user_name ∨ 0 ∈ b.password)) := by
  refine ⟨rfl, rfl, ?_⟩
  by_cases h1 : 0 ∈ b.user_name <;> by_cases h2 : 0 ∈ b.password <;>
    simp [ConnectOptionsBuilder.finalize, CString.new, h1, h2]

/-- Witness for C5: with username "bad\0name" (terminator byte embedded),
the setter still stores the raw text, and finalize fails. -/
theorem finalize_fails_iff_embedded_nul_witness :
    ((ConnectOptionsBuilder.new.set_user_name
        [98, 97, 100, 0, 110, 97, 109, 101]).user_name
      = [98, 97, 100, 0, 110, 97, 109, 101]) ∧
    ((ConnectOptionsBuilder.new.set_user_name
        [98, 97, 100, 0, 110, 97, 109, 101]).finalize 1 2 3 4 = none) := by
  have h1 := finalize_fails_iff_embedded_nul ConnectOptionsBuilder.new
    [98, 97, 100, 0, 110, 97, 109, 101] [] 1 2 3 4
  have h2 := finalize_fails_iff_embedded_nul
    (ConnectOptionsBuilder.new.set_user_name
      [98, 97, 100, 0, 110, 97, 109, 101]) [] [] 1 2 3 4
  exact ⟨h1.1, h2.2.2.mpr (Or.inl (by decide))⟩

/-- Claim C1: cloning re-derives every boundary address field by fixup from
the clone's own deep-copied storage, and — given the allocator's freshness
guarantee, stated as the hypotheses that the clone's newly allocated
box/buffer addresses differ from the source's — no address field of the
clone's boundary representation equals the corresponding address of the
source's storage when the corresponding owned field is present. -/
theorem clone_rederives_own_addresses (self : ConnectOptions)
    (wa sa ua pa : Nat)
    (hw : ∀ b, self.will = some b → wa ≠ b.addr)
    (hs : ∀ b, self.ssl = some b → sa ≠ b.addr)
    (hu : ua ≠ self.user_name.addr)
    (hp : pa ≠ self.password.addr) :
    ((self.clone wa sa ua pa).copts.will
        = (self.clone wa sa ua pa).will.map CBox.addr) ∧
    ((self.clone wa sa ua pa).copts.ssl
        = (self.clone wa sa ua pa).ssl.map CBox.addr) ∧
    ((self.clone wa sa ua pa).copts.username
        = (if (self.clone wa sa ua pa).user_name.bytes.length = 0
           then some (self.clone wa sa ua pa).user_name.addr else none)) ∧
    ((self.clone wa sa ua pa).copts.password
        = some (self.clone wa sa ua pa).password.addr) ∧
    (∀ b, self.will = some b →
        (self.clone wa sa ua pa).copts.will ≠ some b.addr) ∧
    (∀ b, self.ssl = some b →
        (self.clone wa sa ua pa).copts.ssl ≠ some b.addr) ∧
    ((self.clone wa sa ua pa).copts.username ≠ some self.user_name.addr) ∧
    ((self.clone wa sa ua pa).copts.password ≠ some self.password.addr) := by
  obtain ⟨copts, will, ssl, un, pw⟩ := self
  refine ⟨?_, ?_, ?_, ?_, ?_, ?_, ?_, ?_⟩
  · cases will <;>
      simp [ConnectOptions.clone, ConnectOptions.fixup, CString.as_bytes,
        CString.as_ptr]
  · cases ssl <;>
      simp [ConnectOptions.clone, ConnectOptions.fixup, CString.as_bytes,
        CString.as_ptr]
  · simp [ConnectOptions.clone, ConnectOptions.fixup, CString.as_bytes,
      CString.as_ptr]
  · simp [ConnectOptions.clone, ConnectOptions.fixup, CString.as_ptr]
  · intro b hb
    cases hb
    have := hw b rfl
    simp [ConnectOptions.clone, ConnectOptions.fixup, this]
  · intro b hb
    cases hb
    have := hs b rfl
    simp [ConnectOptions.clone, ConnectOptions.fixup, this]
  · by_cases h : un.bytes.length = 0 <;>
      simp [ConnectOptions.clone, ConnectOptions.fixup, CString.as_bytes,
        CString.as_ptr, h, hu]
  · simp [ConnectOptions.clone, ConnectOptions.fixup, CString.as_ptr, hp]

/-- Witness for C1: cloning a concrete aggregate (will box at address 10,
ssl box at 11, credential buffers at 12 and 13) with fresh addresses
20-23 leaves none of the clone's boundary address fields equal to the
source's storage addresses. -/
theorem clone_rederives_own_addresses_witness :
    ((sampleOpts.clone 20 21 22 23).copts.will ≠ some 10) ∧
    ((sampleOpts.clone 20 21 22 23).copts.ssl ≠ some 11) ∧
    ((sampleOpts.clone 20 21 22 23).copts.username ≠ some 12) ∧
    ((sampleOpts.clone 20 21 22 23).copts.password ≠ some 13) := by
  have h := clone_rederives_own_addresses sampleOpts 20 21 22 23
    (by intro b hb; injection hb with h2; rw [← h2]; decide)
    (by intro b hb; injection hb with h2; rw [← h2]; decide)
    (by decide) (by decide)
  exact ⟨h.2.2.2.2.1 ⟨10, ⟨7⟩⟩ rfl, h.2.2.2.2.2.1 ⟨11, ⟨8⟩⟩ rfl,
    h.2.2.2.2.2.2.1, h.2.2.2.2.2.2.2⟩

/-- Claim C2: on every construction path — default construction, builder
finalize, clone — the boundary will/security addresses are null exactly when
the corresponding optional sub-configuration is absent, and when non-null
each is the address of the boxed sub-configuration owned by that same
aggregate, whose content is field-for-field equal to the sub-configuration
that was supplied (the builder's, for finalize; the source's, for clone). -/
theorem construction_will_ssl_invariant (ua0 pa0 : Nat)
    (b : ConnectOptionsBuilder) (wa sa ua pa : Nat)
    (self : ConnectOptions) (wa2 sa2 ua2 pa2 : Nat) :
    ((ConnectOptions.default ua0 pa0).copts.will = none ∧
     (ConnectOptions.default ua0 pa0).copts.ssl = none ∧
     (ConnectOptions.default ua0 pa0).will = none ∧
     (ConnectOptions.default ua0 pa0).ssl = none) ∧
    (∀ r, b.finalize wa sa ua pa = some r →
      ((r.copts.will = none ↔ b.will = none) ∧
       (r.copts.ssl = none ↔ b.ssl = none) ∧
       (∀ w, b.will = some w →
          r.will = some ⟨wa, w⟩ ∧ r.copts.will = some wa) ∧
       (∀ s, b.ssl = some s →
          r.ssl = some ⟨sa, s⟩ ∧ r.copts.ssl = some sa))) ∧
    (((self.clone wa2 sa2 ua2 pa2).copts.will = none ↔ self.will = none) ∧
     ((self.clone wa2 sa2 ua2 pa2).copts.ssl = none ↔ self.ssl = none) ∧
     (∀ bx, self.will = some bx →
        (self.clone wa2 sa2 ua2 pa2).will = some ⟨wa2, bx.val⟩ ∧
        (self.clone wa2 sa2 ua2 pa2).copts.will = some wa2) ∧
     (∀ bx, self.ssl = some bx →
        (self.clone wa2 sa2 ua2 pa2).ssl = some ⟨sa2, bx.val⟩ ∧
        (self.clone wa2 sa2 ua2 pa2).copts.ssl = some sa2)) := by
  refine ⟨⟨rfl, rfl, rfl, rfl⟩, ?_, ?_⟩
  · intro r hr
    obtain ⟨bcopts, bwill, bssl, bun, bpw⟩ := b
    rcases h1 : CString.new ua bun with _ | un <;>
      rcases h2 : CString.new pa bpw with _ | pw <;>
      simp [ConnectOptionsBuilder.finalize, h1, h2] at hr
    subst hr
    cases bwill <;> cases bssl <;>
      simp [ConnectOptions.fixup, CString.as_bytes, CString.as_ptr]
  · obtain ⟨copts, will, ssl, un, pw⟩ := self
    refine ⟨?_, ?_, ?_, ?_⟩
    · cases will <;>
        simp [ConnectOptions.clone, ConnectOptions.fixup]
    · cases ssl <;>
        simp [ConnectOptions.clone, ConnectOptions.fixup]
    · intro bx hb
      cases hb
      simp [ConnectOptions.clone, ConnectOptions.fixup]
    · intro bx hb
      cases hb
      simp [ConnectOptions.clone, ConnectOptions.fixup]

/-- Witness for C2: finalizing a concrete builder holding a will (content 7)
and an ssl configuration (content 8), with the fresh box addresses 30 and
31, yields an aggregate whose boundary will/ssl addresses are the addresses
of its own boxes, which hold the supplied contents; and a default aggregate
has null will and ssl addresses. -/
theorem construction_will_ssl_invariant_witness :
    (sampleBuilder.finalize 30 31 32 33 = some sampleFinalized) ∧
    (sampleFinalized.copts.will = some 30) ∧
    (sampleFinalized.will = some ⟨30, ⟨7⟩⟩) ∧
    (sampleFinalized.copts.ssl = some 31) ∧
    (sampleFinalized.ssl = some ⟨31, ⟨8⟩⟩) ∧
    ((ConnectOptions.default 0 1).copts.will = none) ∧
    ((ConnectOptions.default 0 1).copts.ssl = none) := by
  have h := construction_will_ssl_invariant 0 1 sampleBuilder 30 31 32 33
    sampleFinalized 0 0 0 0
  have hr : sampleBuilder.finalize 30 31 32 33 = some sampleFinalized := by
    decide
  have h2 := h.2.1 sampleFinalized hr
  exact ⟨hr, (h2.2.2.1 ⟨7⟩ rfl).2, (h2.2.2.1 ⟨7⟩ rfl).1,
    (h2.2.2.2 ⟨8⟩ rfl).2, (h2.2.2.2 ⟨8⟩ rfl).1, h.1.1, h.1.2.1⟩
